import Mathlib

/-!
Shallow embedding of the credential and session lifecycle subsystem of the
medical-system repository (auth-service).  The definitions below are
translated from:

* `src/auth-service/src/services/auth.service.js`   (AuthService)
* `src/unnamed/part_005`                            (User model / lockout counters)
* `src/unnamed/part_006`                            (TokenService, JWT issue/verify)
* `src/auth-service/src/models/invitation.model.js` (Invitation model)
* `src/auth-service/src/config/jwt.js`              (JWT configuration shape)
* `src/auth-service/src/utils/error-handler.js`     (ApiError taxonomy)

Timestamps are milliseconds since the Unix epoch (plain `Nat`), as produced
by `Date.now()` and compared by JavaScript `Date` comparisons.  Database state is a pair of
entity lists; Sequelize `findOne` is `List.find?`, `save` on a fetched row is
replacement by primary key, and unique-constraint violations are modelled as
the explicit failure branches the service's catch blocks produce.
-/

namespace MedSys

/-- `role` enum of both entities: `ENUM('admin', 'user')`. -/
inductive Role where
  | admin
  | user
deriving DecidableEq, Repr

instance {ε α : Type} [DecidableEq ε] [DecidableEq α] : DecidableEq (Except ε α) := fun x y =>
  match x, y with
  | .ok a, .ok b =>
    if h : a = b then isTrue (by rw [h]) else isFalse (fun hc => by cases hc; exact h rfl)
  | .error e, .error f =>
    if h : e = f then isTrue (by rw [h]) else isFalse (fun hc => by cases hc; exact h rfl)
  | .ok _, .error _ => isFalse (fun hc => by cases hc)
  | .error _, .ok _ => isFalse (fun hc => by cases hc)

/-- `email.toLowerCase()`: lowercase every character (ASCII suffices for the
claims; this is `String.toLower` written so that it evaluates by reduction). -/
def lowerString (s : String) : String :=
  String.mk (s.data.map Char.toLower)

/-- Stand-in for `bcrypt.hash`.  bcrypt embeds a random salt, but no claim
depends on salting, only on `bcrypt.compare(candidate, hash)` succeeding
exactly for the hashed password; an injective deterministic encoding keeps
that contract. -/
def bcryptHash (password : String) : String :=
  "$2a$12$" ++ password

/-- Row of the `users` table (`src/unnamed/part_005`), in the
`withPassword` view: the `password` column (the bcrypt hash, nullable for
invitation-based accounts) is carried in the record. -/
structure UserRec where
  id : String
  email : String
  password : Option String := none
  firstName : Option String := none
  lastName : Option String := none
  role : Role := .user
  isActive : Bool := false
  lastLogin : Option Nat := none
  passwordResetToken : Option String := none
  passwordResetExpires : Option Nat := none
  failedLoginAttempts : Nat := 0
  lockedUntil : Option Nat := none
deriving DecidableEq, Repr

/-- Row of the `invitations` table (`invitation.model.js`). -/
structure InvitationRec where
  id : String
  email : String
  token : String
  role : Role := .user
  expiresAt : Nat
  invitedById : Option String := none
  isAccepted : Bool := false
  acceptedAt : Option Nat := none
deriving DecidableEq, Repr

/-- `User.comparePassword`: `bcrypt.compare(candidate, this.password)`.
`none` models the rejection bcryptjs raises when the stored hash is `null`
(a non-ApiError, so the service's catch turns it into an Internal error). -/
def comparePassword (u : UserRec) (candidate : String) : Option Bool :=
  u.password.map (fun h => h == bcryptHash candidate)

/-- The 30-minute lockout window of `User.registerFailedLogin`. -/
def lockoutDurationMs : Nat := 30 * 60 * 1000

/-- `User.registerFailedLogin`: increment the counter and, once it has
reached 5, set `lockedUntil = Date.now() + 30 * 60 * 1000`. -/
def registerFailedLogin (u : UserRec) (now : Nat) : UserRec :=
  let u2 := { u with failedLoginAttempts := u.failedLoginAttempts + 1 }
  if 5 ≤ u2.failedLoginAttempts then
    { u2 with lockedUntil := some (now + lockoutDurationMs) }
  else
    u2

/-- `User.resetFailedLoginAttempts`: zero the counter, clear the lock and
stamp `lastLogin`. -/
def resetFailedLoginAttempts (u : UserRec) (now : Nat) : UserRec :=
  { u with failedLoginAttempts := 0, lockedUntil := none, lastLogin := some now }

/-- `User.isAccountLocked`: `this.lockedUntil && this.lockedUntil > new Date()`. -/
def isAccountLocked (u : UserRec) (now : Nat) : Bool :=
  match u.lockedUntil with
  | some t => decide (now < t)
  | none => false

/-- `Invitation.isExpired`: `this.expiresAt < new Date()`. -/
def isExpired (inv : InvitationRec) (now : Nat) : Bool :=
  decide (inv.expiresAt < now)

/-- The in-place acceptance performed by `AuthService.register`
(`invitation.isAccepted = true; invitation.acceptedAt = new Date()`). -/
def acceptInvitation (inv : InvitationRec) (now : Nat) : InvitationRec :=
  { inv with isAccepted := true, acceptedAt := some now }

/-- Persistent state of the auth service: the two entity tables. -/
structure AuthState where
  users : List UserRec
  invitations : List InvitationRec
deriving DecidableEq, Repr

/-- `User.findOne({ where: { email: email.toLowerCase() } })`. -/
def findUserByEmail (st : AuthState) (email : String) : Option UserRec :=
  st.users.find? (fun u => u.email == lowerString email)

/-- `User.findByPk(id)`. -/
def findUserByPk (st : AuthState) (id : String) : Option UserRec :=
  st.users.find? (fun u => u.id == id)

/-- `user.save()` on a fetched row: replace the row with the same primary key. -/
def saveUser (st : AuthState) (u : UserRec) : AuthState :=
  { st with users := st.users.map (fun v => if v.id == u.id then u else v) }

/-- `invitation.save()` on a fetched row. -/
def saveInvitation (st : AuthState) (inv : InvitationRec) : AuthState :=
  { st with invitations := st.invitations.map (fun i => if i.id == inv.id then inv else i) }

/-- `Invitation.findActiveByToken`: token matches, `isAccepted: false`,
`expiresAt: { [Op.gt]: new Date() }`. -/
def findActiveByToken (st : AuthState) (tok : String) (now : Nat) : Option InvitationRec :=
  st.invitations.find? (fun i => i.token == tok && !i.isAccepted && decide (now < i.expiresAt))

/-- The lookup in `resendVerificationEmail`: unaccepted invitation for the
lowercased email (no expiry filter there). -/
def findUnacceptedByEmail (st : AuthState) (email : String) : Option InvitationRec :=
  st.invitations.find? (fun i => i.email == lowerString email && !i.isAccepted)

/-- The `type` claim stamped into every token payload. -/
inductive TokenType where
  | access
  | refresh
deriving DecidableEq, Repr

/-- JWT payload as built by `TokenService`: `{sub, email?, role?, type, jti?}`. -/
structure TokenClaims where
  sub : String
  email : Option String := none
  role : Option Role := none
  tokenType : TokenType
  jti : Option String := none
deriving DecidableEq, Repr

/-- A signed JWT.  `sig` records the secret the signature verifies under
(`jwt.sign(payload, secret, options)`); `issuer`, `audience` and
`expiresAt` are the registered claims stamped by the sign options. -/
structure SignedToken where
  claims : TokenClaims
  sig : String
  issuer : String
  audience : String
  expiresAt : Nat
deriving DecidableEq, Repr

/-- `config/jwt.js`: two independent secrets, two lifetimes, fixed
issuer/audience pair. -/
structure JwtConfig where
  secret : String
  refreshSecret : String
  accessExpiryMs : Nat
  refreshExpiryMs : Nat
  issuer : String := "cancer-data-platform"
  audience : String := "cancer-data-platform-api"
deriving DecidableEq, Repr

/-- `TokenService.generateAccessToken`: payload
`{sub: user.id, email, role, type: 'access'}` signed with `jwtConfig.secret`. -/
def generateAccessToken (cfg : JwtConfig) (u : UserRec) (now : Nat) : SignedToken :=
  { claims := { sub := u.id, email := some u.email, role := some u.role, tokenType := .access },
    sig := cfg.secret,
    issuer := cfg.issuer,
    audience := cfg.audience,
    expiresAt := now + cfg.accessExpiryMs }

/-- `TokenService.generateRefreshToken`: payload
`{sub: user.id, type: 'refresh', jti: uuidv4()}` signed with
`jwtConfig.refreshSecret`; the fresh `jti` is an input. -/
def generateRefreshToken (cfg : JwtConfig) (u : UserRec) (jti : String) (now : Nat) :
    SignedToken :=
  { claims := { sub := u.id, tokenType := .refresh, jti := some jti },
    sig := cfg.refreshSecret,
    issuer := cfg.issuer,
    audience := cfg.audience,
    expiresAt := now + cfg.refreshExpiryMs }

/-- Result of `TokenService.generateTokens`. -/
structure TokenPair where
  accessToken : SignedToken
  refreshToken : SignedToken
deriving DecidableEq, Repr

/-- `TokenService.generateTokens`: the access/refresh pair. -/
def generateTokens (cfg : JwtConfig) (u : UserRec) (jti : String) (now : Nat) : TokenPair :=
  { accessToken := generateAccessToken cfg u now,
    refreshToken := generateRefreshToken cfg u jti now }

/-- The two failure classes `jwt.verify` raises that the service maps:
`TokenExpiredError` and `JsonWebTokenError` (bad signature, audience or
issuer). -/
inductive JwtError where
  | expired
  | invalidSignatureOrClaim
deriving DecidableEq, Repr

/-- `jwt.verify(token, secret, options)`: signature first, then expiry,
then the audience and issuer options.  No payload field other than the
registered claims is inspected: in particular the `type` claim is not. -/
def jwtVerify (tok : SignedToken) (secret issuer audience : String) (now : Nat) :
    Except JwtError TokenClaims :=
  if tok.sig != secret then .error .invalidSignatureOrClaim
  else if tok.expiresAt ≤ now then .error .expired
  else if tok.audience != audience then .error .invalidSignatureOrClaim
  else if tok.issuer != issuer then .error .invalidSignatureOrClaim
  else .ok tok.claims

/-- `errorTypes` of `utils/error-handler.js`. -/
inductive ApiError where
  | badRequest (msg : String)
  | unauthorized (msg : String)
  | forbidden (msg : String)
  | notFound (msg : String)
  | conflict (msg : String)
  | validation (msg : String)
  | internal (msg : String)
deriving DecidableEq, Repr

/-- `TokenService.verifyAccessToken`: `jwt.verify` against
`jwtConfig.secret`, mapping `TokenExpiredError` and `JsonWebTokenError` to
Unauthorized.  There is no check of the `type` claim. -/
def verifyAccessToken (cfg : JwtConfig) (tok : SignedToken) (now : Nat) :
    Except ApiError TokenClaims :=
  match jwtVerify tok cfg.secret cfg.issuer cfg.audience now with
  | .ok c => .ok c
  | .error .expired => .error (.unauthorized "Access token expired")
  | .error .invalidSignatureOrClaim => .error (.unauthorized "Invalid access token")

/-- `TokenService.verifyRefreshToken`: symmetric, against
`jwtConfig.refreshSecret`; again no check of the `type` claim. -/
def verifyRefreshToken (cfg : JwtConfig) (tok : SignedToken) (now : Nat) :
    Except ApiError TokenClaims :=
  match jwtVerify tok cfg.refreshSecret cfg.issuer cfg.audience now with
  | .ok c => .ok c
  | .error .expired => .error (.unauthorized "Refresh token expired")
  | .error .invalidSignatureOrClaim => .error (.unauthorized "Invalid refresh token")

/-- `Math.ceil((user.lockedUntil - new Date()) / 1000 / 60)`:
ceiling division of the remaining milliseconds by 60000. -/
def lockedRemainingMinutes (lockedUntil : Option Nat) (now : Nat) : Nat :=
  (lockedUntil.getD 0 - now + 59999) / 60000

/-- The locked-account message of `AuthService.login`. -/
def lockedAccountMessage (waitMinutes : Nat) : String :=
  "Account is locked. Please try again in " ++ toString waitMinutes ++ " minutes."

/-- Payload of a successful login/registration: the (mutated) user row
exactly as the service returns it, plus the token pair. -/
structure LoginOk where
  user : UserRec
  tokens : TokenPair
deriving DecidableEq, Repr

/-- `AuthService.login`.  The user is fetched with the `withPassword`
scope, so the returned row still carries the password hash.  `jti` is the
fresh identifier `generateRefreshToken` draws. -/
def login (cfg : JwtConfig) (email passwordInput jti : String) (now : Nat) (st : AuthState) :
    Except ApiError LoginOk × AuthState :=
  match findUserByEmail st email with
  | none => (.error (.unauthorized "Invalid email or password"), st)
  | some user =>
    if isAccountLocked user now then
      (.error (.unauthorized (lockedAccountMessage (lockedRemainingMinutes user.lockedUntil now))),
       st)
    else
      match comparePassword user passwordInput with
      | none => (.error (.internal "Login failed"), st)
      | some false =>
        (.error (.unauthorized "Invalid email or password"),
         saveUser st (registerFailedLogin user now))
      | some true =>
        let user2 := resetFailedLoginAttempts user now
        (.ok { user := user2, tokens := generateTokens cfg user2 jti now }, saveUser st user2)

/-- Caller-supplied registration data (`userData` of `AuthService.register`;
the controller never forwards an email, but the service accepts one). -/
structure RegisterData where
  email : Option String := none
  firstName : Option String := none
  lastName : Option String := none
  password : String
deriving DecidableEq, Repr

/-- `userData.email && userData.email.toLowerCase() !== invitation.email`. -/
def emailMismatch (ud : RegisterData) (inv : InvitationRec) : Bool :=
  match ud.email with
  | some e => lowerString e != inv.email
  | none => false

/-- `User.create` fails on the unique email column or a primary-key clash;
the service's catch has no `statusCode` on a Sequelize error and reports
Internal `Registration failed`. -/
def uniqueConstraintViolated (st : AuthState) (email id : String) : Bool :=
  st.users.any (fun u => u.email == email || u.id == id)

/-- The row `AuthService.register` creates: invitation email and role,
`isActive: true`, password hashed by the `beforeSave` hook. -/
def mkRegisteredUser (freshId : String) (inv : InvitationRec) (ud : RegisterData) : UserRec :=
  { id := freshId,
    email := inv.email,
    password := some (bcryptHash ud.password),
    firstName := ud.firstName,
    lastName := ud.lastName,
    role := inv.role,
    isActive := true }

/-- `AuthService.register`: find the active invitation, check the email,
create the user, mark the invitation accepted, issue tokens. -/
def register (cfg : JwtConfig) (tok : String) (ud : RegisterData) (freshId jti : String)
    (now : Nat) (st : AuthState) : Except ApiError LoginOk × AuthState :=
  match findActiveByToken st tok now with
  | none => (.error (.unauthorized "Invalid or expired invitation token"), st)
  | some inv =>
    if emailMismatch ud inv then
      (.error (.forbidden "Email does not match invitation"), st)
    else if uniqueConstraintViolated st inv.email freshId then
      (.error (.internal "Registration failed"), st)
    else
      let newUser := mkRegisteredUser freshId inv ud
      let st2 := saveInvitation { st with users := st.users ++ [newUser] }
        (acceptInvitation inv now)
      (.ok { user := newUser, tokens := generateTokens cfg newUser jti now }, st2)

/-- `AuthService.refreshToken`: verify the refresh token, look the subject
up by primary key, issue a fresh pair.  `isActive` is never consulted. -/
def refreshTokenFlow (cfg : JwtConfig) (tok : SignedToken) (jti : String) (now : Nat)
    (st : AuthState) : Except ApiError TokenPair × AuthState :=
  match verifyRefreshToken cfg tok now with
  | .error e => (.error e, st)
  | .ok decoded =>
    match findUserByPk st decoded.sub with
    | none => (.error (.unauthorized "Invalid token"), st)
    | some user => (.ok (generateTokens cfg user jti now), st)

/-- `passwordResetExpires: { [Op.gt]: new Date() }` (false on a null column). -/
def expiresAfter (e : Option Nat) (now : Nat) : Bool :=
  match e with
  | some t => decide (now < t)
  | none => false

/-- The where-clause of `AuthService.resetPassword`. -/
def matchesReset (u : UserRec) (tok : String) (now : Nat) : Bool :=
  u.passwordResetToken == some tok && expiresAfter u.passwordResetExpires now

/-- The mutation `resetPassword` saves: new hash, both reset fields cleared. -/
def applyPasswordReset (u : UserRec) (newPassword : String) : UserRec :=
  { u with password := some (bcryptHash newPassword),
           passwordResetToken := none,
           passwordResetExpires := none }

/-- `AuthService.resetPassword`. -/
def resetPassword (tok newPassword : String) (now : Nat) (st : AuthState) :
    Except ApiError Unit × AuthState :=
  match st.users.find? (fun u => matchesReset u tok now) with
  | none => (.error (.unauthorized "Invalid or expired reset token"), st)
  | some user => (.ok (), saveUser st (applyPasswordReset user newPassword))

/-- The 1-hour reset-token validity of `sendPasswordResetLink`
(`60 * 60 * 1000`). -/
def resetTokenValidityMs : Nat := 3600000

/-- `AuthService.sendPasswordResetLink` (the ForgotPassword flow).
`resetTok` is the fresh `crypto.randomBytes(32).toString('hex')` value and
`dispatchOk` whether the notification-service POST succeeds.  On dispatch
failure the inner catch logs and throws Internal
`Failed to send password reset email`, which the outer catch re-throws
(it carries a `statusCode`), after the reset token was already saved. -/
def sendPasswordResetLink (email resetTok : String) (dispatchOk : Bool) (now : Nat)
    (st : AuthState) : Except ApiError Unit × AuthState :=
  match findUserByEmail st email with
  | none => (.ok (), st)
  | some user =>
    let user2 := { user with passwordResetToken := some resetTok,
                             passwordResetExpires := some (now + resetTokenValidityMs) }
    let st2 := saveUser st user2
    if dispatchOk then (.ok (), st2)
    else (.error (.internal "Failed to send password reset email"), st2)

/-- The tagged result of `AuthService.validateToken`. -/
inductive ValidateResult where
  | valid (tokenType : TokenType) (userId : String) (role : Option Role)
  | invalid (reason : String)
deriving DecidableEq, Repr

/-- `AuthService.validateToken`: try the access verification, then the
refresh verification.  The access path requires the subject to exist and
be active; the refresh path only requires existence. -/
def validateToken (cfg : JwtConfig) (tok : SignedToken) (now : Nat) (st : AuthState) :
    ValidateResult :=
  match verifyAccessToken cfg tok now with
  | .ok decoded =>
    match findUserByPk st decoded.sub with
    | some user =>
      if user.isActive then .valid .access decoded.sub decoded.role
      else .invalid "User not found or inactive"
    | none => .invalid "User not found or inactive"
  | .error _ =>
    match verifyRefreshToken cfg tok now with
    | .ok decoded =>
      match findUserByPk st decoded.sub with
      | some _ => .valid .refresh decoded.sub none
      | none => .invalid "User not found"
    | .error _ => .invalid "Invalid token"

/-- What a call to `resendVerificationEmail` did. -/
inductive ResendOutcome where
  | silentReturn
  | emailSent (token : String) (expiresAt : Nat)
  | crashedReferenceError (ident : String)
deriving DecidableEq, Repr

/-- `AuthService.resendVerificationEmail`.  When the stored invitation has
expired the code runs `invitation.token = uuidv4()`, but `auth.service.js`
never imports `uuid` (its requires are axios, crypto, sequelize's `Op`, the
configs, the models, the token service, the logger and the error handler),
so that line raises `ReferenceError: uuidv4 is not defined` before
`invitation.save()`; the outer catch logs it and returns, leaving the
store untouched and sending nothing. -/
def resendVerificationEmail (email : String) (now : Nat) (st : AuthState) :
    ResendOutcome × AuthState :=
  match findUserByEmail st email with
  | none => (.silentReturn, st)
  | some user =>
    if user.isActive then (.silentReturn, st)
    else
      match findUnacceptedByEmail st email with
      | none => (.silentReturn, st)
      | some inv =>
        if isExpired inv now then (.crashedReferenceError "uuidv4", st)
        else (.emailSent inv.token inv.expiresAt, st)

/-- One request against the auth service, with the nondeterministic inputs
(fresh identifiers, dispatch success) made explicit. -/
inductive Op where
  | opLogin (email password jti : String)
  | opRegister (tok : String) (ud : RegisterData) (freshId jti : String)
  | opRefresh (tok : SignedToken) (jti : String)
  | opForgot (email resetTok : String) (dispatchOk : Bool)
  | opReset (tok newPassword : String)
  | opResend (email : String)
  | opValidateToken (tok : SignedToken)
  | opValidateInvitation (tok : String)
deriving DecidableEq, Repr

/-- State transition of one request.  `validateToken` and
`validateInvitation` never write to the store. -/
def applyOp (cfg : JwtConfig) (st : AuthState) : Nat × Op → AuthState
  | (now, .opLogin e p j) => (login cfg e p j now st).2
  | (now, .opRegister t ud fid j) => (register cfg t ud fid j now st).2
  | (now, .opRefresh tok j) => (refreshTokenFlow cfg tok j now st).2
  | (now, .opForgot e rt ok) => (sendPasswordResetLink e rt ok now st).2
  | (now, .opReset t p) => (resetPassword t p now st).2
  | (now, .opResend e) => (resendVerificationEmail e now st).2
  | (_, .opValidateToken _) => st
  | (_, .opValidateInvitation _) => st

/-- A trace of requests applied in order. -/
def applyOps (cfg : JwtConfig) (trace : List (Nat × Op)) (st : AuthState) : AuthState :=
  trace.foldl (fun s step => applyOp cfg s step) st

/-- Database uniqueness of the invitation table: primary keys and the
`unique: true` token column. -/
def invitationKeysNodup (st : AuthState) : Prop :=
  (st.invitations.map (fun i => i.id)).Nodup ∧ (st.invitations.map (fun i => i.token)).Nodup

/-- The invitation holding `tok` has been accepted. -/
def tokenConsumed (st : AuthState) (tok : String) : Prop :=
  ∃ i, i ∈ st.invitations ∧ i.token = tok ∧ i.isAccepted = true

/-! ### Concrete fixtures used by witnesses and counterexamples -/

/-- A concrete JWT configuration with distinct secrets and the default
lifetimes (15 minutes / 7 days, in milliseconds). -/
def cfgW : JwtConfig :=
  { secret := "s1", refreshSecret := "s2",
    accessExpiryMs := 900000, refreshExpiryMs := 604800000 }

/-- An active user row with a stored password hash, a stale failure counter
and an expired lock. -/
def aliceRow : UserRec :=
  { id := "u1", email := "a@x.com", password := some (bcryptHash "Secret1"),
    isActive := true, failedLoginAttempts := 3, lockedUntil := some 5 }

/-- An inactive (never-registered) user row. -/
def bobRow : UserRec :=
  { id := "u2", email := "b@x.com", isActive := false }

/-- An unaccepted invitation for `bobRow` whose expiry has passed by time 200. -/
def bobInvitation : InvitationRec :=
  { id := "i1", email := "b@x.com", token := "tok-old", expiresAt := 100 }

/-- `aliceRow` after a successful login at time 10. -/
def aliceLoggedIn : UserRec :=
  { aliceRow with failedLoginAttempts := 0, lockedUntil := none, lastLogin := some 10 }

/-- `aliceRow` after `sendPasswordResetLink` stored the token `rtok1` at
time 10. -/
def aliceWithReset : UserRec :=
  { aliceRow with passwordResetToken := some "rtok1",
                  passwordResetExpires := some (10 + resetTokenValidityMs) }

/-- A user row with a stored password hash, no failed attempts and no lock. -/
def dianaRow : UserRec :=
  { id := "u4", email := "d@x.com", password := some (bcryptHash "Right1") }

/-- An active invitation for `e@x.com` holding the token `tk1` until time 1000. -/
def inviteRow : InvitationRec :=
  { id := "i2", email := "e@x.com", token := "tk1", expiresAt := 1000 }

/-- Concrete caller-supplied registration data. -/
def regData : RegisterData := { password := "Pw123456" }

/-- A user row holding a live password-reset token at time 10. -/
def resetRow : UserRec :=
  { id := "u3", email := "c@x.com", passwordResetToken := some "rst1",
    passwordResetExpires := some 1000 }

/-! ### Helper lemmas about the entity operations -/

theorem registerFailedLogin_id (u : UserRec) (now : Nat) :
    (registerFailedLogin u now).id = u.id := by
  unfold registerFailedLogin
  dsimp only
  split <;> rfl

theorem registerFailedLogin_email (u : UserRec) (now : Nat) :
    (registerFailedLogin u now).email = u.email := by
  unfold registerFailedLogin
  dsimp only
  split <;> rfl

theorem registerFailedLogin_password (u : UserRec) (now : Nat) :
    (registerFailedLogin u now).password = u.password := by
  unfold registerFailedLogin
  dsimp only
  split <;> rfl

theorem registerFailedLogin_of_lt (u : UserRec) (now : Nat)
    (h : u.failedLoginAttempts + 1 < 5) :
    registerFailedLogin u now = { u with failedLoginAttempts := u.failedLoginAttempts + 1 } := by
  unfold registerFailedLogin
  dsimp only
  split
  · omega
  · rfl

theorem registerFailedLogin_of_ge (u : UserRec) (now : Nat)
    (h : 5 ≤ u.failedLoginAttempts + 1) :
    registerFailedLogin u now =
      { u with failedLoginAttempts := u.failedLoginAttempts + 1,
               lockedUntil := some (now + lockoutDurationMs) } := by
  unfold registerFailedLogin
  dsimp only
  split
  · rfl
  · omega

theorem isAccountLocked_of_none {u : UserRec} (h : u.lockedUntil = none) (now : Nat) :
    isAccountLocked u now = false := by
  unfold isAccountLocked
  rw [h]

theorem comparePassword_congr {u v : UserRec} (h : v.password = u.password) (p : String) :
    comparePassword v p = comparePassword u p := by
  unfold comparePassword
  rw [h]

/-! ### Characterizations of the login flow -/

theorem login_no_user (cfg : JwtConfig) (e p j : String) (now : Nat) (st : AuthState)
    (h : findUserByEmail st e = none) :
    login cfg e p j now st = (.error (.unauthorized "Invalid email or password"), st) := by
  unfold login
  rw [h]

theorem login_locked (cfg : JwtConfig) (e p j : String) (now : Nat) (st : AuthState)
    (u : UserRec) (hf : findUserByEmail st e = some u)
    (hl : isAccountLocked u now = true) :
    login cfg e p j now st =
      (.error (.unauthorized (lockedAccountMessage (lockedRemainingMinutes u.lockedUntil now))),
       st) := by
  unfold login
  rw [hf]
  simp [hl]

theorem login_wrong_password (cfg : JwtConfig) (e p j : String) (now : Nat) (st : AuthState)
    (u : UserRec) (hf : findUserByEmail st e = some u)
    (hl : isAccountLocked u now = false)
    (hc : comparePassword u p = some false) :
    login cfg e p j now st =
      (.error (.unauthorized "Invalid email or password"),
       saveUser st (registerFailedLogin u now)) := by
  unfold login
  rw [hf]
  simp [hl, hc]

theorem login_success (cfg : JwtConfig) (e p j : String) (now : Nat) (st : AuthState)
    (u : UserRec) (hf : findUserByEmail st e = some u)
    (hl : isAccountLocked u now = false)
    (hc : comparePassword u p = some true) :
    login cfg e p j now st =
      (.ok { user := resetFailedLoginAttempts u now,
             tokens := generateTokens cfg (resetFailedLoginAttempts u now) j now },
       saveUser st (resetFailedLoginAttempts u now)) := by
  unfold login
  rw [hf]
  simp [hl, hc]

/-! ### Characterizations of the registration flow -/

theorem register_no_active (cfg : JwtConfig) (tok : String) (ud : RegisterData)
    (fid j : String) (now : Nat) (st : AuthState)
    (h : findActiveByToken st tok now = none) :
    register cfg tok ud fid j now st =
      (.error (.unauthorized "Invalid or expired invitation token"), st) := by
  unfold register
  rw [h]

theorem register_success_shape (cfg : JwtConfig) (tok : String) (ud : RegisterData)
    (fid j : String) (now : Nat) (st : AuthState) (inv : InvitationRec)
    (hf : findActiveByToken st tok now = some inv)
    (hm : emailMismatch ud inv = false)
    (hu : uniqueConstraintViolated st inv.email fid = false) :
    register cfg tok ud fid j now st =
      (.ok { user := mkRegisteredUser fid inv ud,
             tokens := generateTokens cfg (mkRegisteredUser fid inv ud) j now },
       saveInvitation { st with users := st.users ++ [mkRegisteredUser fid inv ud] }
         (acceptInvitation inv now)) := by
  unfold register
  rw [hf]
  simp [hm, hu]

theorem register_ok_inv (cfg : JwtConfig) (tok : String) (ud : RegisterData)
    (fid j : String) (now : Nat) (st : AuthState) (r : LoginOk) (st1 : AuthState)
    (h : register cfg tok ud fid j now st = (.ok r, st1)) :
    ∃ inv, findActiveByToken st tok now = some inv ∧
      emailMismatch ud inv = false ∧
      uniqueConstraintViolated st inv.email fid = false ∧
      r = { user := mkRegisteredUser fid inv ud,
            tokens := generateTokens cfg (mkRegisteredUser fid inv ud) j now } ∧
      st1 = saveInvitation { st with users := st.users ++ [mkRegisteredUser fid inv ud] }
        (acceptInvitation inv now) := by
  unfold register at h
  cases hf : findActiveByToken st tok now with
  | none =>
    rw [hf] at h
    simp at h
  | some inv =>
    rw [hf] at h
    by_cases hm : emailMismatch ud inv = true
    · simp [hm] at h
    · rw [Bool.not_eq_true] at hm
      by_cases hu : uniqueConstraintViolated st inv.email fid = true
      · simp [hm, hu] at h
      · rw [Bool.not_eq_true] at hu
        simp only [hm, hu, Bool.false_eq_true, if_false, Prod.mk.injEq] at h
        exact ⟨inv, rfl, hm, hu, by
          obtain ⟨h1, h2⟩ := h
          cases h1
          exact rfl, h.2.symm⟩

/-! ### State projections of the other flows -/

theorem saveUser_invitations (st : AuthState) (u : UserRec) :
    (saveUser st u).invitations = st.invitations := rfl

theorem saveInvitation_users (st : AuthState) (inv : InvitationRec) :
    (saveInvitation st inv).users = st.users := rfl

theorem login_invariant_invitations (cfg : JwtConfig) (e p j : String) (now : Nat)
    (st : AuthState) : ((login cfg e p j now st).2).invitations = st.invitations := by
  unfold login
  cases findUserByEmail st e with
  | none => rfl
  | some u =>
    dsimp only
    split
    · rfl
    · cases h2 : comparePassword u p with
      | none => simp [h2]
      | some b => cases b <;> simp [h2, saveUser]

theorem resetPassword_invitations (tok p : String) (now : Nat) (st : AuthState) :
    ((resetPassword tok p now st).2).invitations = st.invitations := by
  unfold resetPassword
  cases st.users.find? (fun u => matchesReset u tok now) <;> rfl

theorem sendPasswordResetLink_invitations (e rt : String) (ok : Bool) (now : Nat)
    (st : AuthState) : ((sendPasswordResetLink e rt ok now st).2).invitations = st.invitations := by
  unfold sendPasswordResetLink
  cases findUserByEmail st e with
  | none => rfl
  | some u =>
    dsimp only
    split <;> rfl

theorem refreshTokenFlow_state (cfg : JwtConfig) (tok : SignedToken) (j : String)
    (now : Nat) (st : AuthState) : (refreshTokenFlow cfg tok j now st).2 = st := by
  unfold refreshTokenFlow
  cases verifyRefreshToken cfg tok now with
  | error e => rfl
  | ok d => cases h2 : findUserByPk st d.sub <;> simp [h2]

theorem resendVerificationEmail_state (e : String) (now : Nat) (st : AuthState) :
    (resendVerificationEmail e now st).2 = st := by
  unfold resendVerificationEmail
  cases findUserByEmail st e with
  | none => rfl
  | some u =>
    dsimp only
    split
    · rfl
    · cases h2 : findUnacceptedByEmail st e with
      | none => simp [h2]
      | some inv =>
        simp only [h2]
        split <;> rfl

/-! ### C5 / C6: token service claims -/

/-- C5, counterexample: there is no tokenType guard in `verifyAccessToken`.
With the two secrets configured equal, a token produced by
`generateRefreshToken` (tokenType = refresh, correctly signed) is accepted
by `verifyAccessToken` rather than rejected with a type-mismatch error, so
the rejection of refresh tokens is not "independent of the distinct signing
secrets", and no `TokenTypeMismatch` failure exists anywhere in the code. -/
theorem verifyAccess_accepts_refresh_token_when_secrets_equal :
    verifyAccessToken
      { secret := "shared", refreshSecret := "shared",
        accessExpiryMs := 900000, refreshExpiryMs := 604800000 }
      (generateRefreshToken
        { secret := "shared", refreshSecret := "shared",
          accessExpiryMs := 900000, refreshExpiryMs := 604800000 }
        ({ id := "u1", email := "a@x.com" } : UserRec) "jti1" 0) 0 =
      .ok { sub := "u1", tokenType := .refresh, jti := some "jti1" } := by
  decide

/-- C5, amended: when the two configured secrets are distinct,
`verifyAccessToken` rejects every token produced by `generateRefreshToken`
and `verifyRefreshToken` rejects every token produced by
`generateAccessToken`, in both cases with the generic invalid-token
Unauthorized error produced by the signature check — not with a
type-mismatch error, since the `type` claim is never inspected. -/
theorem cross_verification_rejected_by_secrets (cfg : JwtConfig) (u : UserRec) (jti : String)
    (now now2 : Nat) (h : cfg.secret ≠ cfg.refreshSecret) :
    verifyAccessToken cfg (generateRefreshToken cfg u jti now) now2 =
      .error (.unauthorized "Invalid access token") ∧
    verifyRefreshToken cfg (generateAccessToken cfg u now) now2 =
      .error (.unauthorized "Invalid refresh token") := by
  constructor
  · have hb : (cfg.refreshSecret != cfg.secret) = true := by
      simp [bne_iff_ne]
      exact fun e => h e.symm
    unfold verifyAccessToken generateRefreshToken jwtVerify
    simp [hb]
  · have hb : (cfg.secret != cfg.refreshSecret) = true := by
      simp [bne_iff_ne]
      exact h
    unfold verifyRefreshToken generateAccessToken jwtVerify
    simp [hb]

/-- Witness for `cross_verification_rejected_by_secrets` at a concrete
configuration with distinct secrets. -/
theorem cross_verification_rejected_by_secrets_witness :
    ("s1" : String) ≠ "s2" ∧
    (verifyAccessToken
        { secret := "s1", refreshSecret := "s2",
          accessExpiryMs := 900000, refreshExpiryMs := 604800000 }
        (generateRefreshToken
          { secret := "s1", refreshSecret := "s2",
            accessExpiryMs := 900000, refreshExpiryMs := 604800000 }
          ({ id := "u1", email := "a@x.com" } : UserRec) "jti1" 0) 0 =
        .error (.unauthorized "Invalid access token") ∧
      verifyRefreshToken
        { secret := "s1", refreshSecret := "s2",
          accessExpiryMs := 900000, refreshExpiryMs := 604800000 }
        (generateAccessToken
          { secret := "s1", refreshSecret := "s2",
            accessExpiryMs := 900000, refreshExpiryMs := 604800000 }
          ({ id := "u1", email := "a@x.com" } : UserRec) 0) 0 =
        .error (.unauthorized "Invalid refresh token")) :=
  ⟨by decide,
   cross_verification_rejected_by_secrets
     { secret := "s1", refreshSecret := "s2",
       accessExpiryMs := 900000, refreshExpiryMs := 604800000 }
     { id := "u1", email := "a@x.com" } "jti1" 0 0 (by decide)⟩

/-- C6: for every user, `generateTokens` (issuePair) immediately followed
by `verifyAccessToken` on the access token and `verifyRefreshToken` on the
refresh token both succeed (for positive configured lifetimes), and both
yield claims whose subject equals the user's id. -/
theorem issuePair_verify_round_trip (cfg : JwtConfig) (u : UserRec) (jti : String)
    (now : Nat) (ha : 0 < cfg.accessExpiryMs) (hr : 0 < cfg.refreshExpiryMs) :
    ∃ ca cr,
      verifyAccessToken cfg (generateTokens cfg u jti now).accessToken now = .ok ca ∧
      ca.sub = u.id ∧
      verifyRefreshToken cfg (generateTokens cfg u jti now).refreshToken now = .ok cr ∧
      cr.sub = u.id := by
  refine ⟨{ sub := u.id, email := some u.email, role := some u.role, tokenType := .access },
    { sub := u.id, tokenType := .refresh, jti := some jti }, ?_, rfl, ?_, rfl⟩
  · have hexp : ¬ (now + cfg.accessExpiryMs ≤ now) := by omega
    unfold verifyAccessToken generateTokens generateAccessToken jwtVerify
    simp [hexp]
  · have hexp : ¬ (now + cfg.refreshExpiryMs ≤ now) := by omega
    unfold verifyRefreshToken generateTokens generateRefreshToken jwtVerify
    simp [hexp]

/-- Witness for `issuePair_verify_round_trip` at a concrete configuration. -/
theorem issuePair_verify_round_trip_witness :
    0 < (900000 : Nat) ∧ 0 < (604800000 : Nat) ∧
    (∃ ca cr,
      verifyAccessToken
        { secret := "s1", refreshSecret := "s2",
          accessExpiryMs := 900000, refreshExpiryMs := 604800000 }
        (generateTokens
          { secret := "s1", refreshSecret := "s2",
            accessExpiryMs := 900000, refreshExpiryMs := 604800000 }
          ({ id := "u1", email := "a@x.com" } : UserRec) "jti1" 0).accessToken 0 = .ok ca ∧
      ca.sub = "u1" ∧
      verifyRefreshToken
        { secret := "s1", refreshSecret := "s2",
          accessExpiryMs := 900000, refreshExpiryMs := 604800000 }
        (generateTokens
          { secret := "s1", refreshSecret := "s2",
            accessExpiryMs := 900000, refreshExpiryMs := 604800000 }
          ({ id := "u1", email := "a@x.com" } : UserRec) "jti1" 0).refreshToken 0 = .ok cr ∧
      cr.sub = "u1") :=
  ⟨by decide, by decide,
   issuePair_verify_round_trip
     { secret := "s1", refreshSecret := "s2",
       accessExpiryMs := 900000, refreshExpiryMs := 604800000 }
     { id := "u1", email := "a@x.com" } "jti1" 0 (by decide) (by decide)⟩

/-! ### C4: successful login -/

/-- C4 (code evaluation): a successful login resets `failedLoginAttempts`
to 0, clears `lockedUntil` and sets `lastLogin = now` regardless of the
prior counter and lock values, and issues the token pair — but the user
row it returns was fetched with the `withPassword` scope, so the bcrypt
password hash is still present on it (`password = some hash`), contradicting
the claim (and the code's own `Return user (without password)` comment)
that the hash is excluded. -/
theorem login_success_resets_but_returns_hash :
    login cfgW "a@x.com" "Secret1" "jti1" 10 { users := [aliceRow], invitations := [] } =
      (.ok { user := aliceLoggedIn, tokens := generateTokens cfgW aliceLoggedIn "jti1" 10 },
       { users := [aliceLoggedIn], invitations := [] }) ∧
    aliceLoggedIn.password = some (bcryptHash "Secret1") := by
  decide

/-! ### C9: resend-verification reissue -/

/-- C9 (code evaluation): resending to an unaccepted invitation whose
`expiresAt` has passed does not reissue it.  The code reaches
`invitation.token = uuidv4()`, but `uuidv4` is never imported in
`auth.service.js`, so a ReferenceError is raised before `invitation.save()`;
the outer catch swallows it, the invitation keeps its old token and expired
`expiresAt`, and no resend happens — contradicting the claim that the
invitation is updated with a fresh token and a new future expiry. -/
theorem resend_expired_invitation_crashes :
    resendVerificationEmail "b@x.com" 200 { users := [bobRow], invitations := [bobInvitation] } =
      (.crashedReferenceError "uuidv4", { users := [bobRow], invitations := [bobInvitation] }) ∧
    bobInvitation.token = "tok-old" ∧ bobInvitation.expiresAt = 100 := by
  decide

/-! ### C8: forgot-password flow -/

/-- C8, counterexample: when the user exists and the reset-link
notification dispatch fails, `sendPasswordResetLink` surfaces an Internal
error to the caller (the inner catch rethrows `errorTypes.INTERNAL`),
contradicting the claim that a dispatch failure is only logged and never
surfaced. -/
theorem forgot_password_dispatch_failure_surfaced :
    sendPasswordResetLink "a@x.com" "rtok1" false 10 { users := [aliceRow], invitations := [] } =
      (.error (.internal "Failed to send password reset email"),
       { users := [aliceWithReset], invitations := [] }) := by
  decide

/-- C8, amended: ForgotPassword returns a success-shaped response when no
user holds the email; when the user exists it stores a fresh reset token
with a 1-hour expiry and returns success if the notification dispatch
succeeds, but a dispatch failure is surfaced to the caller as an Internal
error (after the token was stored), not merely logged. -/
theorem forgot_password_behavior (email rtok : String) (dOk : Bool) (now : Nat)
    (st : AuthState) :
    (findUserByEmail st email = none →
      sendPasswordResetLink email rtok dOk now st = (.ok (), st)) ∧
    (∀ u, findUserByEmail st email = some u →
      sendPasswordResetLink email rtok dOk now st =
        ((if dOk then .ok () else .error (.internal "Failed to send password reset email")),
         saveUser st { u with passwordResetToken := some rtok,
                              passwordResetExpires := some (now + resetTokenValidityMs) })) := by
  constructor
  · intro h
    unfold sendPasswordResetLink
    rw [h]
  · intro u h
    unfold sendPasswordResetLink
    rw [h]
    dsimp only
    cases dOk <;> rfl

/-- Witness for `forgot_password_behavior`: the existing-user,
dispatch-succeeds case at a concrete state. -/
theorem forgot_password_behavior_witness :
    findUserByEmail { users := [aliceRow], invitations := [] } "a@x.com" = some aliceRow ∧
    sendPasswordResetLink "a@x.com" "rtok1" true 10 { users := [aliceRow], invitations := [] } =
      (.ok (), saveUser { users := [aliceRow], invitations := [] } aliceWithReset) := by
  refine ⟨by decide, ?_⟩
  have h := (forgot_password_behavior "a@x.com" "rtok1" true 10
    { users := [aliceRow], invitations := [] }).2 aliceRow (by decide)
  simpa using h

/-! ### C7: password reset -/

/-- C7: `resetPassword` succeeds exactly when some user matches the
supplied token with an unexpired `passwordResetExpires`, fails with the
Unauthorized reset-token error otherwise, on success saves the new hash
and clears both reset fields in one state update, and — provided the token
identifies a single user, as the random 32-byte generation ensures — the
same token is rejected afterwards (single use). -/
theorem resetPassword_exact_and_single_use (tok pw : String) (now : Nat) (st : AuthState) :
    ((∃ u, u ∈ st.users ∧ matchesReset u tok now = true) ↔
        (∃ st2, resetPassword tok pw now st = (.ok (), st2))) ∧
    ((¬ ∃ u, u ∈ st.users ∧ matchesReset u tok now = true) →
        resetPassword tok pw now st = (.error (.unauthorized "Invalid or expired reset token"), st)) ∧
    (∀ u, st.users.find? (fun v => matchesReset v tok now) = some u →
        resetPassword tok pw now st = (.ok (), saveUser st (applyPasswordReset u pw)) ∧
        ((∀ v, v ∈ st.users → v.passwordResetToken = some tok → v = u) →
          ∀ pw2 now2,
            resetPassword tok pw2 now2 (saveUser st (applyPasswordReset u pw)) =
              (.error (.unauthorized "Invalid or expired reset token"),
               saveUser st (applyPasswordReset u pw)))) := by
  refine ⟨⟨?_, ?_⟩, ?_, ?_⟩
  · intro hex
    have hs : (st.users.find? (fun v => matchesReset v tok now)).isSome := by
      rw [List.find?_isSome]
      obtain ⟨u, hu, hm⟩ := hex
      exact ⟨u, hu, hm⟩
    obtain ⟨u, hu⟩ := Option.isSome_iff_exists.mp hs
    unfold resetPassword
    rw [hu]
    exact ⟨_, rfl⟩
  · rintro ⟨st2, h2⟩
    cases hf : st.users.find? (fun v => matchesReset v tok now) with
    | none =>
      unfold resetPassword at h2
      rw [hf] at h2
      simp at h2
    | some u =>
      refine ⟨u, List.mem_of_find?_eq_some hf, ?_⟩
      have hp := List.find?_some hf
      simpa using hp
  · intro hnone
    have hf : st.users.find? (fun v => matchesReset v tok now) = none := by
      rw [List.find?_eq_none]
      intro v hv hm
      exact hnone ⟨v, hv, hm⟩
    unfold resetPassword
    rw [hf]
  · intro u hf
    refine ⟨by unfold resetPassword; rw [hf], ?_⟩
    intro huniq pw2 now2
    have hf2 : (saveUser st (applyPasswordReset u pw)).users.find?
        (fun v => matchesReset v tok now2) = none := by
      rw [List.find?_eq_none]
      intro x hx hm
      obtain ⟨v, hv, hxv⟩ := List.mem_map.mp hx
      by_cases hid : (v.id == (applyPasswordReset u pw).id) = true
      · rw [if_pos hid] at hxv
        rw [← hxv] at hm
        simp [matchesReset, applyPasswordReset] at hm
      · rw [if_neg hid] at hxv
        rw [← hxv] at hm
        have htokv : v.passwordResetToken = some tok := by
          have h1 := (Bool.and_eq_true _ _).mp hm |>.1
          exact beq_iff_eq.mp h1
        have hvu : v = u := huniq v hv htokv
        apply hid
        rw [hvu]
        exact beq_iff_eq.mpr rfl
    unfold resetPassword
    rw [hf2]

/-- Witness for `resetPassword_exact_and_single_use`: a concrete reset
followed by a rejected reuse of the same token. -/
theorem resetPassword_exact_and_single_use_witness :
    ({ users := [resetRow], invitations := [] } : AuthState).users.find?
        (fun v => matchesReset v "rst1" 10) = some resetRow ∧
    resetPassword "rst1" "NewPass1" 10 { users := [resetRow], invitations := [] } =
      (.ok (), saveUser { users := [resetRow], invitations := [] }
        (applyPasswordReset resetRow "NewPass1")) ∧
    resetPassword "rst1" "Other2" 20
        (saveUser { users := [resetRow], invitations := [] }
          (applyPasswordReset resetRow "NewPass1")) =
      (.error (.unauthorized "Invalid or expired reset token"),
       saveUser { users := [resetRow], invitations := [] }
         (applyPasswordReset resetRow "NewPass1")) := by
  have h := (resetPassword_exact_and_single_use "rst1" "NewPass1" 10
    { users := [resetRow], invitations := [] }).2.2 resetRow (by decide)
  exact ⟨by decide, h.1, h.2 (by decide) "Other2" 20⟩

/-! ### C10: the active-user gate of token introspection -/

theorem jwtVerify_accepted (tok : SignedToken) (secret issuer audience : String) (now : Nat)
    (h1 : tok.sig = secret) (h2 : now < tok.expiresAt)
    (h3 : tok.audience = audience) (h4 : tok.issuer = issuer) :
    jwtVerify tok secret issuer audience now = .ok tok.claims := by
  have e2 : ¬ (tok.expiresAt ≤ now) := by omega
  unfold jwtVerify
  simp [h1, h3, h4, e2]

theorem jwtVerify_sig_mismatch (tok : SignedToken) (secret issuer audience : String)
    (now : Nat) (h : tok.sig ≠ secret) :
    jwtVerify tok secret issuer audience now = .error .invalidSignatureOrClaim := by
  have hb : (tok.sig != secret) = true := bne_iff_ne.mpr h
  unfold jwtVerify
  simp [hb]

/-- C10: `validateToken` requires the subject user to be active on the
access path but not on the refresh path.  With distinct secrets, a validly
signed unexpired access token of an inactive user yields
`invalid "User not found or inactive"`, while a validly signed unexpired
refresh token of the same inactive user yields `valid refresh`, and
`refreshTokenFlow` likewise issues a fresh pair for the inactive user. -/
theorem validateToken_active_only_for_access (cfg : JwtConfig) (st : AuthState) (u : UserRec)
    (tokA tokR : SignedToken) (jti : String) (now : Nat)
    (hsec : cfg.secret ≠ cfg.refreshSecret)
    (hA1 : tokA.sig = cfg.secret) (hA2 : now < tokA.expiresAt)
    (hA3 : tokA.audience = cfg.audience) (hA4 : tokA.issuer = cfg.issuer)
    (hR1 : tokR.sig = cfg.refreshSecret) (hR2 : now < tokR.expiresAt)
    (hR3 : tokR.audience = cfg.audience) (hR4 : tokR.issuer = cfg.issuer)
    (hfindA : findUserByPk st tokA.claims.sub = some u)
    (hfindR : findUserByPk st tokR.claims.sub = some u)
    (hinactive : u.isActive = false) :
    validateToken cfg tokA now st = .invalid "User not found or inactive" ∧
    validateToken cfg tokR now st = .valid .refresh tokR.claims.sub none ∧
    refreshTokenFlow cfg tokR jti now st = (.ok (generateTokens cfg u jti now), st) := by
  have hvA : verifyAccessToken cfg tokA now = .ok tokA.claims := by
    unfold verifyAccessToken
    rw [jwtVerify_accepted tokA cfg.secret cfg.issuer cfg.audience now hA1 hA2 hA3 hA4]
  have hvRa : verifyAccessToken cfg tokR now = .error (.unauthorized "Invalid access token") := by
    unfold verifyAccessToken
    rw [jwtVerify_sig_mismatch tokR cfg.secret cfg.issuer cfg.audience now
      (by rw [hR1]; exact fun e => hsec e.symm)]
  have hvR : verifyRefreshToken cfg tokR now = .ok tokR.claims := by
    unfold verifyRefreshToken
    rw [jwtVerify_accepted tokR cfg.refreshSecret cfg.issuer cfg.audience now hR1 hR2 hR3 hR4]
  refine ⟨?_, ?_, ?_⟩
  · unfold validateToken
    rw [hvA]
    dsimp only
    rw [hfindA]
    simp [hinactive]
  · unfold validateToken
    rw [hvRa]
    dsimp only
    rw [hvR]
    dsimp only
    rw [hfindR]
  · unfold refreshTokenFlow
    rw [hvR]
    dsimp only
    rw [hfindR]

/-- Witness for `validateToken_active_only_for_access`: the inactive user
`bobRow` with tokens generated by the token service itself. -/
theorem validateToken_active_only_for_access_witness :
    bobRow.isActive = false ∧
    validateToken cfgW (generateAccessToken cfgW bobRow 0) 5
        { users := [bobRow], invitations := [] } =
      .invalid "User not found or inactive" ∧
    validateToken cfgW (generateRefreshToken cfgW bobRow "r1" 0) 5
        { users := [bobRow], invitations := [] } =
      .valid .refresh (generateRefreshToken cfgW bobRow "r1" 0).claims.sub none ∧
    refreshTokenFlow cfgW (generateRefreshToken cfgW bobRow "r1" 0) "r2" 5
        { users := [bobRow], invitations := [] } =
      (.ok (generateTokens cfgW bobRow "r2" 5), { users := [bobRow], invitations := [] }) := by
  have h := validateToken_active_only_for_access cfgW { users := [bobRow], invitations := [] }
    bobRow (generateAccessToken cfgW bobRow 0) (generateRefreshToken cfgW bobRow "r1" 0) "r2" 5
    (by decide) (by decide) (by decide) (by decide) (by decide)
    (by decide) (by decide) (by decide) (by decide)
    (by decide) (by decide) (by decide)
  exact ⟨by decide, h.1, h.2.1, h.2.2⟩

/-! ### C2: registration is atomic -/

/-- C2: when no active invitation matches the supplied token (wrong or
expired), `register` fails Unauthorized and leaves the store untouched;
and in every case the outcome is all-or-nothing — either an error with the
store exactly as before (no user created, no invitation accepted), or a
success in whose post-state the created user is present and the invitation
holding the token is accepted (hence no longer active). -/
theorem register_atomic (cfg : JwtConfig) (tok : String) (ud : RegisterData)
    (fid j : String) (now : Nat) (st : AuthState) :
    (findActiveByToken st tok now = none →
      register cfg tok ud fid j now st =
        (.error (.unauthorized "Invalid or expired invitation token"), st)) ∧
    ((∃ e, register cfg tok ud fid j now st = (.error e, st)) ∨
      (∃ r st2, register cfg tok ud fid j now st = (.ok r, st2) ∧
        r.user ∈ st2.users ∧
        ∃ i, i ∈ st2.invitations ∧ i.token = tok ∧ i.isAccepted = true)) := by
  constructor
  · exact register_no_active cfg tok ud fid j now st
  · cases hf : findActiveByToken st tok now with
    | none => exact .inl ⟨_, register_no_active cfg tok ud fid j now st hf⟩
    | some inv =>
      by_cases hm : emailMismatch ud inv = true
      · exact .inl ⟨.forbidden "Email does not match invitation",
          by unfold register; rw [hf]; simp [hm]⟩
      · rw [Bool.not_eq_true] at hm
        by_cases hu : uniqueConstraintViolated st inv.email fid = true
        · exact .inl ⟨.internal "Registration failed",
            by unfold register; rw [hf]; simp [hm, hu]⟩
        · rw [Bool.not_eq_true] at hu
          right
          have hshape := register_success_shape cfg tok ud fid j now st inv hf hm hu
          refine ⟨_, _, hshape, ?_, ?_⟩
          · show mkRegisteredUser fid inv ud ∈
              (saveInvitation { st with users := st.users ++ [mkRegisteredUser fid inv ud] }
                (acceptInvitation inv now)).users
            rw [saveInvitation_users]
            simp
          · have hmem : inv ∈ st.invitations := List.mem_of_find?_eq_some hf
            have hp := List.find?_some hf
            simp only [Bool.and_eq_true, Bool.not_eq_true', beq_iff_eq,
              decide_eq_true_eq] at hp
            refine ⟨acceptInvitation inv now, ?_, ?_, rfl⟩
            · apply List.mem_map.mpr
              exact ⟨inv, hmem, by simp [acceptInvitation]⟩
            · show (acceptInvitation inv now).token = tok
              have : inv.token = tok := hp.1.1
              simpa [acceptInvitation] using this

/-- Witness for `register_atomic`: an expired invitation token is rejected
with Unauthorized and no user is created (the store is unchanged). -/
theorem register_atomic_witness :
    findActiveByToken { users := [], invitations := [bobInvitation] } "tok-old" 200 = none ∧
    register cfgW "tok-old" { password := "Pw123456" } "nid" "j1" 200
        { users := [], invitations := [bobInvitation] } =
      (.error (.unauthorized "Invalid or expired invitation token"),
       { users := [], invitations := [bobInvitation] }) :=
  ⟨by decide,
   (register_atomic cfgW "tok-old" { password := "Pw123456" } "nid" "j1" 200
     { users := [], invitations := [bobInvitation] }).1 (by decide)⟩

/-! ### C3: lockout after five consecutive failures -/

theorem login_failed_step (cfg : JwtConfig) (em pw j : String) (t : Nat) (u : UserRec)
    (hem : (u.email == lowerString em) = true)
    (hnl : u.lockedUntil = none)
    (hpw : comparePassword u pw = some false) :
    applyOp cfg { users := [u], invitations := [] } (t, .opLogin em pw j) =
      { users := [registerFailedLogin u t], invitations := [] } := by
  have hf : findUserByEmail { users := [u], invitations := [] } em = some u := by
    unfold findUserByEmail
    exact List.find?_cons_of_pos _ hem
  show (login cfg em pw j t { users := [u], invitations := [] }).2 = _
  rw [login_wrong_password cfg em pw j t _ u hf (isAccountLocked_of_none hnl t) hpw]
  unfold saveUser
  simp [registerFailedLogin_id]

theorem failed_attempt_propagates (em pw : String) (u : UserRec) (t : Nat)
    (he : (u.email == lowerString em) = true) (hn : u.lockedUntil = none)
    (hc : comparePassword u pw = some false) (hlt : u.failedLoginAttempts + 1 < 5) :
    ((registerFailedLogin u t).email == lowerString em) = true ∧
    (registerFailedLogin u t).lockedUntil = none ∧
    comparePassword (registerFailedLogin u t) pw = some false ∧
    (registerFailedLogin u t).failedLoginAttempts = u.failedLoginAttempts + 1 := by
  rw [registerFailedLogin_of_lt u t hlt]
  exact ⟨he, hn, hc, rfl⟩

/-- C3: starting from a user with no failed attempts and no lock, five
consecutive failed login requests (wrong password) leave the stored row
with `failedLoginAttempts = 5` and `lockedUntil` exactly 30 minutes after
the fifth failure; `isAccountLocked` is true precisely until that moment;
and any login attempt made while locked is rejected Unauthorized with the
remaining wait time in minutes (rounded up), leaving the stored row — in
particular the counter and `lockedUntil` — completely unchanged. -/
theorem five_failures_lock_thirty_minutes (cfg : JwtConfig) (em pw : String)
    (j1 j2 j3 j4 j5 : String) (u0 : UserRec) (t1 t2 t3 t4 t5 : Nat)
    (hcount : u0.failedLoginAttempts = 0) (hlock : u0.lockedUntil = none)
    (hem : (u0.email == lowerString em) = true)
    (hpw : comparePassword u0 pw = some false) :
    ∃ u5,
      applyOps cfg
          [(t1, .opLogin em pw j1), (t2, .opLogin em pw j2), (t3, .opLogin em pw j3),
            (t4, .opLogin em pw j4), (t5, .opLogin em pw j5)]
          { users := [u0], invitations := [] } =
        { users := [u5], invitations := [] } ∧
      u5.failedLoginAttempts = 5 ∧
      u5.lockedUntil = some (t5 + lockoutDurationMs) ∧
      (∀ t, isAccountLocked u5 t = decide (t < t5 + lockoutDurationMs)) ∧
      (∀ pw2 j6 t6, t6 < t5 + lockoutDurationMs →
        login cfg em pw2 j6 t6 { users := [u5], invitations := [] } =
          (.error (.unauthorized
            (lockedAccountMessage ((t5 + lockoutDurationMs - t6 + 59999) / 60000))),
            { users := [u5], invitations := [] })) := by
  set v1 := registerFailedLogin u0 t1 with hv1
  set v2 := registerFailedLogin v1 t2 with hv2
  set v3 := registerFailedLogin v2 t3 with hv3
  set v4 := registerFailedLogin v3 t4 with hv4
  set v5 := registerFailedLogin v4 t5 with hv5
  obtain ⟨he1, hn1, hc1, hf1⟩ := failed_attempt_propagates em pw u0 t1 hem hlock hpw (by omega)
  have hf1c : v1.failedLoginAttempts = 1 := by rw [hf1, hcount]
  obtain ⟨he2, hn2, hc2, hf2⟩ := failed_attempt_propagates em pw v1 t2 he1 hn1 hc1 (by omega)
  have hf2c : v2.failedLoginAttempts = 2 := by rw [hf2, hf1c]
  obtain ⟨he3, hn3, hc3, hf3⟩ := failed_attempt_propagates em pw v2 t3 he2 hn2 hc2 (by omega)
  have hf3c : v3.failedLoginAttempts = 3 := by rw [hf3, hf2c]
  obtain ⟨he4, hn4, hc4, hf4⟩ := failed_attempt_propagates em pw v3 t4 he3 hn3 hc3 (by omega)
  have hf4c : v4.failedLoginAttempts = 4 := by rw [hf4, hf3c]
  have hv5eq := registerFailedLogin_of_ge v4 t5 (by omega)
  have hf5 : v5.failedLoginAttempts = 5 := by
    rw [hv5, hv5eq]
    show v4.failedLoginAttempts + 1 = 5
    omega
  have hl5 : v5.lockedUntil = some (t5 + lockoutDurationMs) := by
    rw [hv5, hv5eq]
  have he5 : (v5.email == lowerString em) = true := by
    rw [hv5, hv5eq]
    exact he4
  have s1 := login_failed_step cfg em pw j1 t1 u0 hem hlock hpw
  have s2 := login_failed_step cfg em pw j2 t2 v1 he1 hn1 hc1
  have s3 := login_failed_step cfg em pw j3 t3 v2 he2 hn2 hc2
  have s4 := login_failed_step cfg em pw j4 t4 v3 he3 hn3 hc3
  have s5 := login_failed_step cfg em pw j5 t5 v4 he4 hn4 hc4
  refine ⟨v5, ?_, hf5, hl5, ?_, ?_⟩
  · show applyOps cfg _ _ = _
    simp only [applyOps, List.foldl]
    rw [s1, s2, s3, s4, s5]
  · intro t
    unfold isAccountLocked
    rw [hl5]
  · intro pw2 j6 t6 ht6
    have hfind : findUserByEmail { users := [v5], invitations := [] } em = some v5 := by
      unfold findUserByEmail
      exact List.find?_cons_of_pos _ he5
    have hlk : isAccountLocked v5 t6 = true := by
      unfold isAccountLocked
      rw [hl5]
      simpa using ht6
    rw [login_locked cfg em pw2 j6 t6 _ v5 hfind hlk, hl5]
    rfl

/-- Witness for `five_failures_lock_thirty_minutes`: five wrong-password
attempts against a concrete user at times 1..5. -/
theorem five_failures_lock_thirty_minutes_witness :
    comparePassword dianaRow "Wrong" = some false ∧
    dianaRow.failedLoginAttempts = 0 ∧ dianaRow.lockedUntil = none ∧
    (∃ u5,
      applyOps cfgW
          [(1, .opLogin "d@x.com" "Wrong" "a"), (2, .opLogin "d@x.com" "Wrong" "b"),
            (3, .opLogin "d@x.com" "Wrong" "c"), (4, .opLogin "d@x.com" "Wrong" "d"),
            (5, .opLogin "d@x.com" "Wrong" "e")]
          { users := [dianaRow], invitations := [] } =
        { users := [u5], invitations := [] } ∧
      u5.failedLoginAttempts = 5 ∧
      u5.lockedUntil = some (5 + lockoutDurationMs) ∧
      (∀ t, isAccountLocked u5 t = decide (t < 5 + lockoutDurationMs)) ∧
      (∀ pw2 j6 t6, t6 < 5 + lockoutDurationMs →
        login cfgW "d@x.com" pw2 j6 t6 { users := [u5], invitations := [] } =
          (.error (.unauthorized
            (lockedAccountMessage ((5 + lockoutDurationMs - t6 + 59999) / 60000))),
            { users := [u5], invitations := [] }))) :=
  ⟨by decide, by decide, by decide,
   five_failures_lock_thirty_minutes cfgW "d@x.com" "Wrong" "a" "b" "c" "d" "e" dianaRow
     1 2 3 4 5 (by decide) (by decide) (by decide) (by decide)⟩

/-! ### C1: an invitation token completes registration at most once -/

theorem invariants_transfer {st st2 : AuthState} (t : String)
    (h : st2.invitations = st.invitations)
    (hp : invitationKeysNodup st ∧ tokenConsumed st t) :
    invitationKeysNodup st2 ∧ tokenConsumed st2 t := by
  unfold invitationKeysNodup tokenConsumed at *
  rw [h]
  exact hp

theorem accept_map_keys (st : AuthState) (inv : InvitationRec) (now : Nat)
    (hid : (st.invitations.map (fun i => i.id)).Nodup)
    (hmem : inv ∈ st.invitations) :
    ((st.invitations.map (fun i =>
        if i.id == (acceptInvitation inv now).id then acceptInvitation inv now else i)).map
          (fun i => i.id) = st.invitations.map (fun i => i.id)) ∧
    ((st.invitations.map (fun i =>
        if i.id == (acceptInvitation inv now).id then acceptInvitation inv now else i)).map
          (fun i => i.token) = st.invitations.map (fun i => i.token)) := by
  have hinj := List.inj_on_of_nodup_map hid
  constructor
  · rw [List.map_map]
    apply List.map_congr_left
    intro a ha
    by_cases hcase : (a.id == (acceptInvitation inv now).id) = true
    · have haid : a.id = inv.id := beq_iff_eq.mp hcase
      simp only [Function.comp_apply, if_pos hcase]
      exact haid.symm
    · simp only [Function.comp_apply, if_neg hcase]
  · rw [List.map_map]
    apply List.map_congr_left
    intro a ha
    by_cases hcase : (a.id == (acceptInvitation inv now).id) = true
    · have haid : a.id = inv.id := beq_iff_eq.mp hcase
      have haeq : a = inv := hinj ha hmem haid
      simp only [Function.comp_apply, if_pos hcase]
      rw [haeq]
      rfl
    · simp only [Function.comp_apply, if_neg hcase]

theorem accept_mem_map (st : AuthState) (inv : InvitationRec) (now : Nat)
    (hmem : inv ∈ st.invitations) :
    acceptInvitation inv now ∈
      st.invitations.map (fun i =>
        if i.id == (acceptInvitation inv now).id then acceptInvitation inv now else i) := by
  apply List.mem_map.mpr
  exact ⟨inv, hmem, by simp [acceptInvitation]⟩

theorem register_state_invariants (cfg : JwtConfig) (tok2 : String) (ud : RegisterData)
    (fid j : String) (now : Nat) (st : AuthState) (t : String)
    (hwf : invitationKeysNodup st) :
    invitationKeysNodup (register cfg tok2 ud fid j now st).2 ∧
    (tokenConsumed st t → tokenConsumed (register cfg tok2 ud fid j now st).2 t) ∧
    (∀ r st1, register cfg tok2 ud fid j now st = (.ok r, st1) → tokenConsumed st1 tok2) := by
  obtain ⟨hid, htok⟩ := hwf
  cases hf : findActiveByToken st tok2 now with
  | none =>
    rw [register_no_active cfg tok2 ud fid j now st hf]
    exact ⟨⟨hid, htok⟩, id, fun r st1 h => by simp at h⟩
  | some inv =>
    have hmem : inv ∈ st.invitations := List.mem_of_find?_eq_some hf
    have hp := List.find?_some hf
    simp only [Bool.and_eq_true, Bool.not_eq_true', beq_iff_eq, decide_eq_true_eq] at hp
    by_cases hm : emailMismatch ud inv = true
    · have heq : register cfg tok2 ud fid j now st =
          (.error (.forbidden "Email does not match invitation"), st) := by
        unfold register
        rw [hf]
        simp [hm]
      rw [heq]
      exact ⟨⟨hid, htok⟩, id, fun r st1 h => by simp at h⟩
    · rw [Bool.not_eq_true] at hm
      by_cases hu : uniqueConstraintViolated st inv.email fid = true
      · have heq : register cfg tok2 ud fid j now st =
            (.error (.internal "Registration failed"), st) := by
          unfold register
          rw [hf]
          simp [hm, hu]
        rw [heq]
        exact ⟨⟨hid, htok⟩, id, fun r st1 h => by simp at h⟩
      · rw [Bool.not_eq_true] at hu
        have heq := register_success_shape cfg tok2 ud fid j now st inv hf hm hu
        rw [heq]
        have hkeys := accept_map_keys st inv now hid hmem
        have hinj := List.inj_on_of_nodup_map hid
        refine ⟨⟨?_, ?_⟩, ?_, ?_⟩
        · exact hkeys.1.symm ▸ hid
        · exact hkeys.2.symm ▸ htok
        · rintro ⟨i0, hi0, hti0, hai0⟩
          by_cases hcase : (i0.id == (acceptInvitation inv now).id) = true
          · have haid : i0.id = inv.id := beq_iff_eq.mp hcase
            have : i0 = inv := hinj hi0 hmem haid
            rw [this] at hai0
            rw [hp.1.2] at hai0
            simp at hai0
          · refine ⟨i0, ?_, hti0, hai0⟩
            apply List.mem_map.mpr
            exact ⟨i0, hi0, if_neg hcase⟩
        · intro r st1 h
          simp only [Prod.mk.injEq] at h
          have hst1 : st1 = saveInvitation
              { st with users := st.users ++ [mkRegisteredUser fid inv ud] }
              (acceptInvitation inv now) := h.2.symm
          refine ⟨acceptInvitation inv now, ?_, ?_, rfl⟩
          · rw [hst1]
            exact accept_mem_map st inv now hmem
          · show (acceptInvitation inv now).token = tok2
            have : inv.token = tok2 := hp.1.1
            simpa [acceptInvitation] using this

theorem applyOp_preserves_invariants (cfg : JwtConfig) (t : String) (st : AuthState)
    (step : Nat × Op) (h : invitationKeysNodup st ∧ tokenConsumed st t) :
    invitationKeysNodup (applyOp cfg st step) ∧ tokenConsumed (applyOp cfg st step) t := by
  obtain ⟨now, op⟩ := step
  cases op with
  | opLogin e p j => exact invariants_transfer t (login_invariant_invitations cfg e p j now st) h
  | opRegister tk ud fid j =>
    obtain ⟨hwf, hc⟩ := h
    have H := register_state_invariants cfg tk ud fid j now st t hwf
    exact ⟨H.1, H.2.1 hc⟩
  | opRefresh tok j =>
    refine invariants_transfer t ?_ h
    show ((refreshTokenFlow cfg tok j now st).2).invitations = st.invitations
    rw [refreshTokenFlow_state]
  | opForgot e rt okb =>
    exact invariants_transfer t (sendPasswordResetLink_invitations e rt okb now st) h
  | opReset tk p => exact invariants_transfer t (resetPassword_invitations tk p now st) h
  | opResend e =>
    refine invariants_transfer t ?_ h
    show ((resendVerificationEmail e now st).2).invitations = st.invitations
    rw [resendVerificationEmail_state]
  | opValidateToken tok => exact h
  | opValidateInvitation tk => exact h

theorem applyOps_preserves_invariants (cfg : JwtConfig) (t : String) :
    ∀ (trace : List (Nat × Op)) (st : AuthState),
      invitationKeysNodup st ∧ tokenConsumed st t →
      invitationKeysNodup (applyOps cfg trace st) ∧ tokenConsumed (applyOps cfg trace st) t := by
  intro trace
  induction trace with
  | nil =>
    intro st h
    simpa [applyOps] using h
  | cons s rest ih =>
    intro st h
    have h2 := applyOp_preserves_invariants cfg t st s h
    simpa [applyOps, List.foldl_cons] using ih (applyOp cfg st s) h2

theorem consumed_register_unauthorized (cfg : JwtConfig) (tok : String) (ud : RegisterData)
    (fid j : String) (now : Nat) (st : AuthState)
    (htok : (st.invitations.map (fun i => i.token)).Nodup)
    (hc : tokenConsumed st tok) :
    register cfg tok ud fid j now st =
      (.error (.unauthorized "Invalid or expired invitation token"), st) := by
  obtain ⟨i0, hi0, hti0, hai0⟩ := hc
  have hnone : findActiveByToken st tok now = none := by
    unfold findActiveByToken
    rw [List.find?_eq_none]
    intro i hi hp
    simp only [Bool.and_eq_true, Bool.not_eq_true', beq_iff_eq, decide_eq_true_eq] at hp
    have hinj := List.inj_on_of_nodup_map htok
    have hieq : i = i0 := hinj hi hi0 (by rw [hp.1.1, hti0])
    have : i.isAccepted = true := by rw [hieq, hai0]
    rw [hp.1.2] at this
    simp at this
  exact register_no_active cfg tok ud fid j now st hnone

/-- C1: once `register` has succeeded with an invitation token (marking
the invitation accepted), every later `register` call with the same token
— after any interleaving of auth-service requests — fails Unauthorized
with the invalid-or-expired-token message and leaves the store unchanged,
so no second user is ever created from that token.  The hypothesis
`invitationKeysNodup` is the invitation table's database uniqueness
(primary key and the unique token column). -/
theorem invitation_token_single_use (cfg : JwtConfig) (tok : String) (ud : RegisterData)
    (fid j : String) (now : Nat) (st : AuthState) (r : LoginOk) (st1 : AuthState)
    (hwf : invitationKeysNodup st)
    (hreg : register cfg tok ud fid j now st = (.ok r, st1))
    (trace : List (Nat × Op)) (ud2 : RegisterData) (fid2 j2 : String) (now2 : Nat) :
    register cfg tok ud2 fid2 j2 now2 (applyOps cfg trace st1) =
      (.error (.unauthorized "Invalid or expired invitation token"), applyOps cfg trace st1) := by
  have H := register_state_invariants cfg tok ud fid j now st tok hwf
  have hwf1 : invitationKeysNodup st1 := by
    have h1 := H.1
    rw [hreg] at h1
    exact h1
  have hcons1 : tokenConsumed st1 tok := H.2.2 r st1 hreg
  have H2 := applyOps_preserves_invariants cfg tok trace st1 ⟨hwf1, hcons1⟩
  exact consumed_register_unauthorized cfg tok ud2 fid2 j2 now2 _ H2.1.2 H2.2

/-- Witness for `invitation_token_single_use`: a concrete registration
with token `tk1`, a later interleaved login request, then a second
registration attempt with `tk1` that is rejected with the store unchanged. -/
theorem invitation_token_single_use_witness :
    invitationKeysNodup { users := [], invitations := [inviteRow] } ∧
    register cfgW "tk1" regData "u9" "j1" 10 { users := [], invitations := [inviteRow] } =
      (.ok { user := mkRegisteredUser "u9" inviteRow regData,
             tokens := generateTokens cfgW (mkRegisteredUser "u9" inviteRow regData) "j1" 10 },
       saveInvitation { users := [mkRegisteredUser "u9" inviteRow regData],
                        invitations := [inviteRow] } (acceptInvitation inviteRow 10)) ∧
    register cfgW "tk1" regData "u10" "j3" 20
        (applyOps cfgW [(12, .opLogin "e@x.com" "Pw123456" "j2")]
          (saveInvitation { users := [mkRegisteredUser "u9" inviteRow regData],
                            invitations := [inviteRow] } (acceptInvitation inviteRow 10))) =
      (.error (.unauthorized "Invalid or expired invitation token"),
       applyOps cfgW [(12, .opLogin "e@x.com" "Pw123456" "j2")]
         (saveInvitation { users := [mkRegisteredUser "u9" inviteRow regData],
                           invitations := [inviteRow] } (acceptInvitation inviteRow 10))) :=
  ⟨by unfold invitationKeysNodup; exact ⟨by decide, by decide⟩, by decide,
   invitation_token_single_use cfgW "tk1" regData "u9" "j1" 10
     { users := [], invitations := [inviteRow] }
     { user := mkRegisteredUser "u9" inviteRow regData,
       tokens := generateTokens cfgW (mkRegisteredUser "u9" inviteRow regData) "j1" 10 }
     (saveInvitation { users := [mkRegisteredUser "u9" inviteRow regData],
                       invitations := [inviteRow] } (acceptInvitation inviteRow 10))
     (by unfold invitationKeysNodup; exact ⟨by decide, by decide⟩) (by decide)
     [(12, .opLogin "e@x.com" "Pw123456" "j2")] regData "u10" "j3" 20⟩

end MedSys
